import Mathlib

/-!
Verification of the Small-World FSM game demo (C sources under `src/`).

This file gives a shallow embedding of the parts of the program the claims
are about: the generic FSM engine (`src/src/fsm.c`), the player and NPC
behavior tables (`src/src/player.cpp`, `src/src/npc.cpp`), the animation
player (`src/src/animation.c`), the collision resolver
(`src/src/gameobject.cpp`) and the command/event translation layer
(`src/src/mediator.cpp`).

Modelling conventions:
* C `float`/`double` values are idealized as exact rationals (`ℚ`);
  square roots (raylib's `sqrtf`) are idealized as exact and represented
  by `Rat.sqrt`, which agrees with the real square root on every
  perfect-square input used in this development.
* C `int` is modelled as `ℤ` (no arithmetic in the modelled code comes
  near overflow).
* Function pointers stored in `StateConfig` are defunctionalized: the
  table stores a tag (`EventFn`, `UpdateFn`, `LifecycleFn`) and a
  dispatch function interprets the tag, mirroring C function pointers.
* raylib's `GetFrameTime()` (the per-frame delta) is threaded through as
  an explicit parameter `dt`; libc's `rand()` is modelled as an
  arbitrary pre-drawn sequence of naturals carried in the `rng` field
  and consumed from the front.
* `printf`/`fprintf` calls are I/O only and have no effect on the game
  state; they are dropped.  `Texture2D` is an opaque handle, modelled as
  a `ℕ`.
-/

namespace SmallWorld

/-- The `State` enum from `src/include/fsm/fsm.h`.  `count` is the
`STATE_COUNT` sentinel (a table-size bound, also used as the initial
`previousState`). -/
inductive State : Type where
  | idle
  | walking
  | attacking
  | shield
  | dead
  | respawn
  | collision
  | count
deriving DecidableEq, Repr

/-- The `Event` enum from `src/include/events/events.h` (only the
non-commented-out constructors). -/
inductive Event : Type where
  | none
  | move
  | attack
  | defend
  | die
  | respawn
  | collisionStart
  | collisionEnd
  | count
deriving DecidableEq, Repr

/-- The `Command` enum from `src/include/command/command.h`. -/
inductive Command : Type where
  | moveUp
  | moveUpRight
  | moveUpLeft
  | moveDown
  | moveDownLeft
  | moveDownRight
  | moveLeft
  | moveRight
  | attack
  | collisionStart
  | collisionEnd
  | none
  | count
deriving DecidableEq, Repr

/-- raylib `Vector2`, with float components idealized as rationals. -/
structure Vector2 : Type where
  x : ℚ
  y : ℚ
deriving DecidableEq, Repr

/-- raylib `Rectangle` (a sprite-sheet frame region). -/
structure Rectangle : Type where
  x : ℚ
  y : ℚ
  width : ℚ
  height : ℚ
deriving DecidableEq, Repr

/-- raylib `Color` (RGBA bytes). -/
structure Color : Type where
  r : ℕ
  g : ℕ
  b : ℕ
  a : ℕ
deriving DecidableEq, Repr

/-- raylib's `GREEN` constant. -/
def GREEN : Color := ⟨0, 228, 48, 255⟩

/-- raylib's `RED` constant. -/
def RED : Color := ⟨230, 41, 55, 255⟩

/-- cute_c2's `c2Circle`: a circle collider with center `p` and radius `r`. -/
structure c2Circle : Type where
  p : Vector2
  r : ℚ
deriving DecidableEq, Repr

/-- cute_c2's `c2AABB` (axis-aligned bounding box). -/
structure c2AABB : Type where
  lo : Vector2
  hi : Vector2
deriving DecidableEq, Repr

/-- `COLLISION_BUFFER` from `src/include/utils/constants.h`. -/
def COLLISION_BUFFER : ℚ := 2

/-- `COLLISION_PUSH_BACK` from `src/include/utils/constants.h`. -/
def COLLISION_PUSH_BACK : ℚ := 2

/-- `AnimationData` from `src/include/animation/animation.h`.  The
texture is an opaque handle. -/
structure AnimationData : Type where
  texture : ℕ
  frames : List Rectangle
  currentFrame : ℤ
  frameCount : ℤ
  frameDuration : ℚ
  frameTimer : ℚ
  active : Bool
  loop : Bool
deriving DecidableEq, Repr

/-- `InitAnimation` from `src/src/animation.c`: store the texture, copy
`frameCount` frames out of the given frame array, and reset index,
timer, loop and active flags. -/
def InitAnimation (texture : ℕ) (frames : List Rectangle) (frameCount : ℤ)
    (frameDuration : ℚ) (loop : Bool) : AnimationData :=
  { texture := texture
    frames := frames.take frameCount.toNat
    frameCount := frameCount
    frameDuration := frameDuration
    loop := loop
    currentFrame := 0
    frameTimer := 0
    active := true }

/-- `UpdateAnimation` from `src/src/animation.c`.  `dt` is the value
returned by raylib's `GetFrameTime()` for this call.  Adds `dt` to the
frame timer; once the timer reaches the frame duration, advances the
frame (wrapping to 0 when looping, clamping to the last frame when not)
and resets the timer to 0. -/
def UpdateAnimation (animationData : AnimationData) (dt : ℚ) : AnimationData :=
  if !animationData.active then animationData
  else
    let timer := animationData.frameTimer + dt
    if timer ≥ animationData.frameDuration then
      let advanced := animationData.currentFrame + 1
      let newFrame :=
        if advanced ≥ animationData.frameCount then
          if animationData.loop then 0 else animationData.frameCount - 1
        else advanced
      { animationData with currentFrame := newFrame, frameTimer := 0 }
    else
      { animationData with frameTimer := timer }

/-- Tags for the `StateFunction` pointers stored in `Entry`/`Exit` slots
of the state tables (a defunctionalization of the C function pointers).
None of these callbacks requests a state transition. -/
inductive LifecycleFn : Type where
  | playerEnterIdle
  | playerExitIdle
  | playerEnterWalking
  | playerExitWalking
  | playerEnterAttacking
  | playerExitAttacking
  | playerEnterShielding
  | playerExitShielding
  | playerEnterDie
  | playerExitDie
  | playerEnterRespawn
  | playerExitRespawn
  | npcEnterIdle
  | npcExitIdle
  | npcEnterAttacking
  | npcExitAttacking
  | npcEnterShielding
  | npcExitShielding
  | npcEnterDead
  | npcExitDead
deriving DecidableEq, Repr

/-- Tags for the `StateFunction` pointers stored in `Update` slots of the
state tables.  These may call `ChangeState`. -/
inductive UpdateFn : Type where
  | playerUpdateIdle
  | playerUpdateWalking
  | playerUpdateAttacking
  | playerUpdateShielding
  | playerUpdateDie
  | playerUpdateRespawn
  | npcUpdateIdle
  | npcUpdateAttacking
  | npcUpdateShielding
  | npcUpdateDead
deriving DecidableEq, Repr

/-- Tags for the `EventFunction` pointers stored in `HandleEvent` slots
of the state tables.  These may call `ChangeState`. -/
inductive EventFn : Type where
  | playerIdle
  | playerWalking
  | playerAttacking
  | playerShielding
  | playerDie
  | playerRespawn
  | npcIdle
  | npcAttacking
  | npcShielding
  | npcDead
deriving DecidableEq, Repr

/-- `StateConfig` from `src/include/fsm/fsm.h`: per-state display name,
defunctionalized callback pointers (NULL pointers become `none`), and
the transition whitelist.  The C `nextStates` array plus
`nextStatesCount` pair is modelled as a list. -/
structure StateConfig : Type where
  name : Option String
  HandleEvent : Option EventFn
  Entry : Option LifecycleFn
  Update : Option UpdateFn
  Exit : Option LifecycleFn
  nextStates : List State
deriving DecidableEq, Repr

/-- `EMPTY_STATE_CONFIG` from `src/src/player.cpp` / `src/src/npc.cpp`:
`(StateConfig){NULL, NULL, NULL, NULL, NULL, NULL, 0}`. -/
def EMPTY_STATE_CONFIG : StateConfig :=
  { name := none
    HandleEvent := none
    Entry := none
    Update := none
    Exit := none
    nextStates := [] }

/-- The `GameObject` base structure from
`src/include/gameobjects/gameobject.h`.  The `stateConfigs` array is a
total function on the `State` index type.  The extra `rng` field is the
modelled stream of pending libc `rand()` outputs (a hidden global in the
C program, threaded through explicitly here). -/
structure GameObject : Type where
  name : String
  previousState : State
  currentState : State
  stateConfigs : State → StateConfig
  position : Vector2
  velocity : Vector2
  color : Color
  collider : c2Circle
  bounds : c2AABB
  keyframes : ℕ
  animation : AnimationData
  health : ℤ
  rng : List ℕ

/-- libc `rand()`, modelled on an arbitrary pre-drawn sequence: return
the next value (0 if the sequence is exhausted) and the rest of the
sequence. -/
def rand : List ℕ → ℕ × List ℕ
  | [] => (0, [])
  | h :: t => (h, t)

/-- `UpdateAnimation(&obj->animation)` as it appears inside state
callbacks: update the embedded animation in place with the current frame
delta `dt`. -/
def tickAnimation (obj : GameObject) (dt : ℚ) : GameObject :=
  { obj with animation := UpdateAnimation obj.animation dt }

/-- `InitGameObjectAnimation` from `src/src/gameobject.cpp`: rebuild the
object's animation from its sprite sheet, the given frames, frame count
and speed, always looping. -/
def InitGameObjectAnimation (obj : GameObject) (frames : List Rectangle)
    (frameCount : ℤ) (speed : ℚ) : GameObject :=
  { obj with animation := InitAnimation obj.keyframes frames frameCount speed true }

/-- A row of `n` square frames of side `size` at height `y` on the
sprite sheet, frame `i` starting at x-offset `size * i`.  This is the
layout of every regular frame array in `src/src/player.cpp` and
`src/src/npc.cpp`. -/
def frameRow (y size : ℚ) (n : ℕ) : List Rectangle :=
  (List.range n).map (fun i => ⟨size * i, y, size, size⟩)

/-- The seven idle-animation variants of `SelectRandomIdleAnimation`
(`src/src/player.cpp`): choices 1-3 are the 8-frame rows at y = 320,
384, 448; choices 4-7 are the 13-frame rows at y = 1024, 1088, 1152,
1216; the `default` branch plays variant 1. -/
def idleVariantFrames : ℕ → List Rectangle
  | 1 => frameRow 320 64 8
  | 2 => frameRow 384 64 8
  | 3 => frameRow 448 64 8
  | 4 => frameRow 1024 64 13
  | 5 => frameRow 1088 64 13
  | 6 => frameRow 1152 64 13
  | 7 => frameRow 1216 64 13
  | _ => frameRow 320 64 8

/-- `SelectRandomIdleAnimation` from `src/src/player.cpp`: draw
`rand() % 7 + 1` and install the corresponding idle variant; every
branch calls `InitGameObjectAnimation(obj, idleK, 8, 0.2f)`. -/
def SelectRandomIdleAnimation (obj : GameObject) : GameObject :=
  let drawn := rand obj.rng
  let randomChoice := drawn.1 % 7 + 1
  InitGameObjectAnimation { obj with rng := drawn.2 }
    (idleVariantFrames randomChoice) 8 (1/5)

/-- `PlayerMove` from `src/src/player.cpp`: add the direction to the
position and copy the new position into the collider center. -/
def PlayerMove (player : GameObject) (moveDirection : Vector2) : GameObject :=
  let newPos : Vector2 := ⟨player.position.x + moveDirection.x,
                           player.position.y + moveDirection.y⟩
  { player with position := newPos, collider := { player.collider with p := newPos } }

/-- `PlayerEnterIdle` (`src/src/player.cpp`): picks a fresh random idle
animation when this is a real entry into Idle. -/
def PlayerEnterIdle (obj : GameObject) : GameObject :=
  if obj.previousState ≠ obj.currentState ∧ obj.currentState = State.idle then
    SelectRandomIdleAnimation obj
  else obj

/-- `PlayerUpdateIdle` (`src/src/player.cpp`): advance the animation and
re-roll a new idle variant once the current one reaches its final
frame. -/
def PlayerUpdateIdle (obj : GameObject) (dt : ℚ) : GameObject :=
  let obj := tickAnimation obj dt
  if obj.animation.currentFrame = obj.animation.frameCount - 1 then
    SelectRandomIdleAnimation obj
  else obj

/-- `PlayerExitIdle` (`src/src/player.cpp`): log-only. -/
def PlayerExitIdle (obj : GameObject) : GameObject := obj

/-- `PlayerEnterWalking` (`src/src/player.cpp`): installs the 9-frame
walking-up animation at 0.1 s per frame. -/
def PlayerEnterWalking (obj : GameObject) : GameObject :=
  InitGameObjectAnimation obj (frameRow 512 64 9) 9 (1/10)

/-- `PlayerUpdateWalking` (`src/src/player.cpp`): move one unit up and
advance the animation. -/
def PlayerUpdateWalking (obj : GameObject) (dt : ℚ) : GameObject :=
  tickAnimation (PlayerMove obj ⟨0, -1⟩) dt

/-- `PlayerExitWalking` (`src/src/player.cpp`): log-only. -/
def PlayerExitWalking (obj : GameObject) : GameObject := obj

/-- `PlayerEnterAttacking` (`src/src/player.cpp`): installs the 6-frame
192x192 attack animation at 0.1 s per frame. -/
def PlayerEnterAttacking (obj : GameObject) : GameObject :=
  InitGameObjectAnimation obj (frameRow 2952 192 6) 6 (1/10)

/-- `PlayerUpdateAttacking` (`src/src/player.cpp`): advance the
animation. -/
def PlayerUpdateAttacking (obj : GameObject) (dt : ℚ) : GameObject :=
  tickAnimation obj dt

/-- `PlayerExitAttacking` (`src/src/player.cpp`): log-only. -/
def PlayerExitAttacking (obj : GameObject) : GameObject := obj

/-- `PlayerEnterShielding` (`src/src/player.cpp`): log-only. -/
def PlayerEnterShielding (obj : GameObject) : GameObject := obj

/-- `PlayerUpdateShielding` (`src/src/player.cpp`): advance the
animation. -/
def PlayerUpdateShielding (obj : GameObject) (dt : ℚ) : GameObject :=
  tickAnimation obj dt

/-- `PlayerExitShielding` (`src/src/player.cpp`): log-only. -/
def PlayerExitShielding (obj : GameObject) : GameObject := obj

/-- `PlayerEnterDie` (`src/src/player.cpp`): log-only. -/
def PlayerEnterDie (obj : GameObject) : GameObject := obj

/-- `PlayerExitDie` (`src/src/player.cpp`): log-only. -/
def PlayerExitDie (obj : GameObject) : GameObject := obj

/-- `PlayerEnterRespawn` (`src/src/player.cpp`): log-only. -/
def PlayerEnterRespawn (obj : GameObject) : GameObject := obj

/-- `PlayerExitRespawn` (`src/src/player.cpp`): log-only. -/
def PlayerExitRespawn (obj : GameObject) : GameObject := obj

/-- `NPCEnterIdle` (`src/src/npc.cpp`): installs the NPC idle animation
(7-rect frame array, installed with frame count 6) on a real entry into
Idle. -/
def NPCEnterIdle (obj : GameObject) : GameObject :=
  if obj.previousState ≠ obj.currentState ∧ obj.currentState = State.idle then
    InitGameObjectAnimation obj (frameRow 128 64 7) 6 (1/5)
  else obj

/-- `NPCUpdateIdle` (`src/src/npc.cpp`): advance the animation. -/
def NPCUpdateIdle (obj : GameObject) (dt : ℚ) : GameObject :=
  tickAnimation obj dt

/-- `NPCExitIdle` (`src/src/npc.cpp`): log-only. -/
def NPCExitIdle (obj : GameObject) : GameObject := obj

/-- The NPC attack frames from `NPCEnterAttacking` (`src/src/npc.cpp`);
the first three rects sit at y = 3328 and the last three at y = 3520. -/
def npcAttackingFrames : List Rectangle :=
  [⟨0, 3328, 192, 192⟩, ⟨192, 3328, 192, 192⟩, ⟨384, 3328, 192, 192⟩,
   ⟨576, 3520, 192, 192⟩, ⟨768, 3520, 192, 192⟩, ⟨960, 3520, 192, 192⟩]

/-- `NPCEnterAttacking` (`src/src/npc.cpp`): installs the 6-frame attack
animation at 0.2 s per frame. -/
def NPCEnterAttacking (obj : GameObject) : GameObject :=
  InitGameObjectAnimation obj npcAttackingFrames 6 (1/5)

/-- `NPCUpdateAttacking` (`src/src/npc.cpp`): advance the animation. -/
def NPCUpdateAttacking (obj : GameObject) (dt : ℚ) : GameObject :=
  tickAnimation obj dt

/-- `NPCExitAttacking` (`src/src/npc.cpp`): advances the animation once
on exit. -/
def NPCExitAttacking (obj : GameObject) (dt : ℚ) : GameObject :=
  tickAnimation obj dt

/-- `NPCEnterShielding` (`src/src/npc.cpp`): installs the shielding
animation (8-rect frame array, installed with frame count 6). -/
def NPCEnterShielding (obj : GameObject) : GameObject :=
  InitGameObjectAnimation obj (frameRow 384 64 8) 6 (1/5)

/-- `NPCUpdateShielding` (`src/src/npc.cpp`): advance the animation. -/
def NPCUpdateShielding (obj : GameObject) (dt : ℚ) : GameObject :=
  tickAnimation obj dt

/-- `NPCExitShielding` (`src/src/npc.cpp`): log-only. -/
def NPCExitShielding (obj : GameObject) : GameObject := obj

/-- `NPCEnterDead` (`src/src/npc.cpp`): installs the 6-frame death
animation at 0.2 s per frame. -/
def NPCEnterDead (obj : GameObject) : GameObject :=
  InitGameObjectAnimation obj (frameRow 1280 64 6) 6 (1/5)

/-- `NPCUpdateDead` (`src/src/npc.cpp`): advance the animation only; no
state transition is requested here. -/
def NPCUpdateDead (obj : GameObject) (dt : ℚ) : GameObject :=
  tickAnimation obj dt

/-- `NPCExitDead` (`src/src/npc.cpp`): log-only. -/
def NPCExitDead (obj : GameObject) : GameObject := obj

/-- Dispatch for the defunctionalized Entry/Exit pointers.  `dt` is the
frame delta observed through `GetFrameTime()` by any callback that
advances the animation. -/
def runLifecycleFn : LifecycleFn → ℚ → GameObject → GameObject
  | .playerEnterIdle, _, obj => PlayerEnterIdle obj
  | .playerExitIdle, _, obj => PlayerExitIdle obj
  | .playerEnterWalking, _, obj => PlayerEnterWalking obj
  | .playerExitWalking, _, obj => PlayerExitWalking obj
  | .playerEnterAttacking, _, obj => PlayerEnterAttacking obj
  | .playerExitAttacking, _, obj => PlayerExitAttacking obj
  | .playerEnterShielding, _, obj => PlayerEnterShielding obj
  | .playerExitShielding, _, obj => PlayerExitShielding obj
  | .playerEnterDie, _, obj => PlayerEnterDie obj
  | .playerExitDie, _, obj => PlayerExitDie obj
  | .playerEnterRespawn, _, obj => PlayerEnterRespawn obj
  | .playerExitRespawn, _, obj => PlayerExitRespawn obj
  | .npcEnterIdle, _, obj => NPCEnterIdle obj
  | .npcExitIdle, _, obj => NPCExitIdle obj
  | .npcEnterAttacking, _, obj => NPCEnterAttacking obj
  | .npcExitAttacking, dt, obj => NPCExitAttacking obj dt
  | .npcEnterShielding, _, obj => NPCEnterShielding obj
  | .npcExitShielding, _, obj => NPCExitShielding obj
  | .npcEnterDead, _, obj => NPCEnterDead obj
  | .npcExitDead, _, obj => NPCExitDead obj

/-- Run an optional Entry/Exit pointer: a NULL pointer is a no-op
(`if (config->Exit) config->Exit(obj);`). -/
def runOptLifecycle : Option LifecycleFn → ℚ → GameObject → GameObject
  | none, _, obj => obj
  | some f, dt, obj => runLifecycleFn f dt obj

/-- `CanEnterState` from `src/src/fsm.c`: scan the current state's
`nextStates` whitelist for the requested target. -/
def CanEnterState (obj : GameObject) (newState : State) : Bool :=
  decide (newState ∈ (obj.stateConfigs obj.currentState).nextStates)

/-- `ChangeState` from `src/src/fsm.c`.  If the transition is invalid,
report (a `printf`, dropped here) and return the object unchanged with
`false`.  Otherwise run the current state's Exit callback, record
`previousState := currentState` (as read after Exit ran), set
`currentState := newState`, run the new state's Entry callback, and
return `true`. -/
def ChangeState (obj : GameObject) (newState : State) (dt : ℚ) :
    GameObject × Bool :=
  if CanEnterState obj newState then
    let currentConfig := obj.stateConfigs obj.currentState
    let newConfig := obj.stateConfigs newState
    let exited := runOptLifecycle currentConfig.Exit dt obj
    let switched := { exited with
                      previousState := exited.currentState
                      currentState := newState }
    (runOptLifecycle newConfig.Entry dt switched, true)
  else
    (obj, false)

/-- `PlayerUpdateDie` (`src/src/player.cpp`): unconditionally requests
the transition to Respawn, then advances the animation. -/
def PlayerUpdateDie (obj : GameObject) (dt : ℚ) : GameObject :=
  tickAnimation (ChangeState obj State.respawn dt).1 dt

/-- `PlayerUpdateRespawn` (`src/src/player.cpp`): unconditionally
requests the transition back to Idle, then advances the animation. -/
def PlayerUpdateRespawn (obj : GameObject) (dt : ℚ) : GameObject :=
  tickAnimation (ChangeState obj State.idle dt).1 dt

/-- Dispatch for the defunctionalized Update pointers. -/
def runUpdateFn : UpdateFn → ℚ → GameObject → GameObject
  | .playerUpdateIdle, dt, obj => PlayerUpdateIdle obj dt
  | .playerUpdateWalking, dt, obj => PlayerUpdateWalking obj dt
  | .playerUpdateAttacking, dt, obj => PlayerUpdateAttacking obj dt
  | .playerUpdateShielding, dt, obj => PlayerUpdateShielding obj dt
  | .playerUpdateDie, dt, obj => PlayerUpdateDie obj dt
  | .playerUpdateRespawn, dt, obj => PlayerUpdateRespawn obj dt
  | .npcUpdateIdle, dt, obj => NPCUpdateIdle obj dt
  | .npcUpdateAttacking, dt, obj => NPCUpdateAttacking obj dt
  | .npcUpdateShielding, dt, obj => NPCUpdateShielding obj dt
  | .npcUpdateDead, dt, obj => NPCUpdateDead obj dt

/-- `PlayerIdleHandleEvent` (`src/src/player.cpp`). -/
def PlayerIdleHandleEvent (obj : GameObject) (event : Event) (dt : ℚ) :
    GameObject :=
  match event with
  | .move => (ChangeState obj State.walking dt).1
  | .attack => (ChangeState obj State.attacking dt).1
  | .defend => (ChangeState obj State.shield dt).1
  | .die => (ChangeState obj State.dead dt).1
  | .none => { obj with previousState := obj.currentState }
  | _ => obj

/-- `PlayerWalkingHandleEvent` (`src/src/player.cpp`). -/
def PlayerWalkingHandleEvent (obj : GameObject) (event : Event) (dt : ℚ) :
    GameObject :=
  match event with
  | .none => (ChangeState obj State.idle dt).1
  | .attack => (ChangeState obj State.attacking dt).1
  | .die => (ChangeState obj State.dead dt).1
  | _ => obj

/-- `PlayerAttackingHandleEvent` (`src/src/player.cpp`). -/
def PlayerAttackingHandleEvent (obj : GameObject) (event : Event) (dt : ℚ) :
    GameObject :=
  match event with
  | .none => (ChangeState obj State.idle dt).1
  | .die => (ChangeState obj State.dead dt).1
  | _ => obj

/-- `PlayerShieldingHandleEvent` (`src/src/player.cpp`). -/
def PlayerShieldingHandleEvent (obj : GameObject) (event : Event) (dt : ℚ) :
    GameObject :=
  match event with
  | .none => (ChangeState obj State.idle dt).1
  | .die => (ChangeState obj State.dead dt).1
  | _ => obj

/-- `PlayerDieHandleEvent` (`src/src/player.cpp`): ignores the event. -/
def PlayerDieHandleEvent (obj : GameObject) (_event : Event) (_dt : ℚ) :
    GameObject := obj

/-- `PlayerRespawnHandleEvent` (`src/src/player.cpp`): ignores the
event. -/
def PlayerRespawnHandleEvent (obj : GameObject) (_event : Event) (_dt : ℚ) :
    GameObject := obj

/-- `NPCIdleHandleEvent` (`src/src/npc.cpp`). -/
def NPCIdleHandleEvent (obj : GameObject) (event : Event) (dt : ℚ) :
    GameObject :=
  match event with
  | .attack => (ChangeState obj State.attacking dt).1
  | .defend => (ChangeState obj State.shield dt).1
  | .die => (ChangeState obj State.dead dt).1
  | _ => obj

/-- `NPCAttackingHandleEvent` (`src/src/npc.cpp`). -/
def NPCAttackingHandleEvent (obj : GameObject) (event : Event) (dt : ℚ) :
    GameObject :=
  match event with
  | .none => (ChangeState obj State.idle dt).1
  | .defend => (ChangeState obj State.shield dt).1
  | .die => (ChangeState obj State.dead dt).1
  | _ => obj

/-- `NPCShieldingHandleEvent` (`src/src/npc.cpp`). -/
def NPCShieldingHandleEvent (obj : GameObject) (event : Event) (dt : ℚ) :
    GameObject :=
  match event with
  | .none => (ChangeState obj State.idle dt).1
  | .attack => (ChangeState obj State.attacking dt).1
  | .die => (ChangeState obj State.dead dt).1
  | _ => obj

/-- `NPCDeadHandleEvent` (`src/src/npc.cpp`): both `EVENT_NONE` and
`EVENT_RESPAWN` request the direct transition back to Idle. -/
def NPCDeadHandleEvent (obj : GameObject) (event : Event) (dt : ℚ) :
    GameObject :=
  match event with
  | .none => (ChangeState obj State.idle dt).1
  | .respawn => (ChangeState obj State.idle dt).1
  | _ => obj

/-- Dispatch for the defunctionalized `EventFunction` pointers. -/
def runEventFn : EventFn → GameObject → Event → ℚ → GameObject
  | .playerIdle, obj, event, dt => PlayerIdleHandleEvent obj event dt
  | .playerWalking, obj, event, dt => PlayerWalkingHandleEvent obj event dt
  | .playerAttacking, obj, event, dt => PlayerAttackingHandleEvent obj event dt
  | .playerShielding, obj, event, dt => PlayerShieldingHandleEvent obj event dt
  | .playerDie, obj, event, dt => PlayerDieHandleEvent obj event dt
  | .playerRespawn, obj, event, dt => PlayerRespawnHandleEvent obj event dt
  | .npcIdle, obj, event, dt => NPCIdleHandleEvent obj event dt
  | .npcAttacking, obj, event, dt => NPCAttackingHandleEvent obj event dt
  | .npcShielding, obj, event, dt => NPCShieldingHandleEvent obj event dt
  | .npcDead, obj, event, dt => NPCDeadHandleEvent obj event dt

/-- `HandleEvent` from `src/src/fsm.c`: look up the current state's
config; if its event handler is defined, run it, else do nothing. -/
def HandleEvent (obj : GameObject) (event : Event) (dt : ℚ) : GameObject :=
  match (obj.stateConfigs obj.currentState).HandleEvent with
  | none => obj
  | some f => runEventFn f obj event dt

/-- `UpdateState` from `src/src/fsm.c`: look up the current state's
config; if its update callback is defined, run it, else do nothing. -/
def UpdateState (obj : GameObject) (dt : ℚ) : GameObject :=
  match (obj.stateConfigs obj.currentState).Update with
  | none => obj
  | some f => runUpdateFn f dt obj

/-- The state table built by `InitPlayerFSM` (`src/src/player.cpp`).
Indices `STATE_IDLE` through `STATE_RESPAWN` get full configs with their
transition whitelists; `STATE_COLLISION` is set to
`EMPTY_STATE_CONFIG`.  The `STATE_COUNT` index is out of the C array's
bounds and is never written by the program; it is mapped to the empty
config here. -/
def playerStateConfigs : State → StateConfig
  | .idle =>
    { name := some "Player_Idle"
      HandleEvent := some .playerIdle
      Entry := some .playerEnterIdle
      Update := some .playerUpdateIdle
      Exit := some .playerExitIdle
      nextStates := [.walking, .attacking, .shield, .dead] }
  | .walking =>
    { name := some "Player_Walking"
      HandleEvent := some .playerWalking
      Entry := some .playerEnterWalking
      Update := some .playerUpdateWalking
      Exit := some .playerExitWalking
      nextStates := [.idle, .attacking, .dead] }
  | .attacking =>
    { name := some "Player_Attacking"
      HandleEvent := some .playerAttacking
      Entry := some .playerEnterAttacking
      Update := some .playerUpdateAttacking
      Exit := some .playerExitAttacking
      nextStates := [.idle, .dead] }
  | .shield =>
    { name := some "Player_Shielding"
      HandleEvent := some .playerShielding
      Entry := some .playerEnterShielding
      Update := some .playerUpdateShielding
      Exit := some .playerExitShielding
      nextStates := [.idle, .dead] }
  | .dead =>
    { name := some "Player_Dead"
      HandleEvent := some .playerDie
      Entry := some .playerEnterDie
      Update := some .playerUpdateDie
      Exit := some .playerExitDie
      nextStates := [.respawn] }
  | .respawn =>
    { name := some "Player_Respawn"
      HandleEvent := some .playerRespawn
      Entry := some .playerEnterRespawn
      Update := some .playerUpdateRespawn
      Exit := some .playerExitRespawn
      nextStates := [.idle] }
  | .collision => EMPTY_STATE_CONFIG
  | .count => EMPTY_STATE_CONFIG

/-- The state table built by `InitNPCFSM` (`src/src/npc.cpp`).
`STATE_WALKING`, `STATE_RESPAWN` and `STATE_COLLISION` are explicitly
set to `EMPTY_STATE_CONFIG`; the out-of-bounds `STATE_COUNT` index is
mapped to the empty config as for the player. -/
def npcStateConfigs : State → StateConfig
  | .idle =>
    { name := some "NPC_Idle"
      HandleEvent := some .npcIdle
      Entry := some .npcEnterIdle
      Update := some .npcUpdateIdle
      Exit := some .npcExitIdle
      nextStates := [.attacking, .shield, .dead] }
  | .attacking =>
    { name := some "NPC_Attacking"
      HandleEvent := some .npcAttacking
      Entry := some .npcEnterAttacking
      Update := some .npcUpdateAttacking
      Exit := some .npcExitAttacking
      nextStates := [.idle, .shield, .dead] }
  | .shield =>
    { name := some "NPC_Shielding"
      HandleEvent := some .npcShielding
      Entry := some .npcEnterShielding
      Update := some .npcUpdateShielding
      Exit := some .npcExitShielding
      nextStates := [.idle, .attacking, .dead] }
  | .dead =>
    { name := some "NPC_Dead"
      HandleEvent := some .npcDead
      Entry := some .npcEnterDead
      Update := some .npcUpdateDead
      Exit := some .npcExitDead
      nextStates := [.idle] }
  | .walking => EMPTY_STATE_CONFIG
  | .respawn => EMPTY_STATE_CONFIG
  | .collision => EMPTY_STATE_CONFIG
  | .count => EMPTY_STATE_CONFIG

/-- `InitGameObject` from `src/src/gameobject.cpp`: set the given
fields, seed `previousState` with the `STATE_COUNT` sentinel, and leave
the state table and animation at their pre-initialization defaults (the
C code leaves them uninitialized; `InitPlayer`/`InitNPC` fill them right
after). -/
def InitGameObject (name : String) (position velocity : Vector2)
    (currentState : State) (color : Color) (collider : c2Circle)
    (bounds : c2AABB) (keyframes : ℕ) (health : ℤ) (rng : List ℕ) :
    GameObject :=
  { name := name
    position := position
    velocity := velocity
    currentState := currentState
    previousState := State.count
    color := color
    collider := collider
    bounds := bounds
    keyframes := keyframes
    health := health
    stateConfigs := fun _ => EMPTY_STATE_CONFIG
    animation := InitAnimation keyframes [] 0 0 true
    rng := rng }

/-- `InitPlayerFSM` (`src/src/player.cpp`): install the player state
table. -/
def InitPlayerFSM (obj : GameObject) : GameObject :=
  { obj with stateConfigs := playerStateConfigs }

/-- `InitNPCFSM` (`src/src/npc.cpp`): install the NPC state table. -/
def InitNPCFSM (obj : GameObject) : GameObject :=
  { obj with stateConfigs := npcStateConfigs }

/-- `InitPlayer` from `src/src/player.cpp`, for the 800x600 window
opened by `src/src/main.cpp`: base object at the screen center with a
radius-10 circle collider, green, 100 health; then the FSM table is
installed and, the initial state being Idle, `PlayerEnterIdle` runs
immediately.  `playerTexture` is the loaded sprite-sheet handle and
`rng` the modelled libc `rand()` stream. -/
def InitPlayer (name : String) (playerTexture : ℕ) (rng : List ℕ) :
    GameObject :=
  let base := InitGameObject name ⟨400, 300⟩ ⟨0, 0⟩ State.idle GREEN
    ⟨⟨400, 300⟩, 10⟩ ⟨⟨390, 290⟩, ⟨410, 310⟩⟩ playerTexture 100 rng
  let withFSM := InitPlayerFSM base
  if withFSM.currentState = State.idle then PlayerEnterIdle withFSM
  else withFSM

/-- `InitNPC` from `src/src/npc.cpp`, for the 800x600 window: base
object at (width/2, 100) with a radius-10 circle collider, green, 100
health; then the NPC FSM table is installed and `NPCEnterIdle` runs
immediately. -/
def InitNPC (name : String) (npcTexture : ℕ) (rng : List ℕ) : GameObject :=
  let base := InitGameObject name ⟨400, 100⟩ ⟨0, 0⟩ State.idle GREEN
    ⟨⟨400, 100⟩, 10⟩ ⟨⟨390, 90⟩, ⟨410, 110⟩⟩ npcTexture 100 rng
  let withFSM := InitNPCFSM base
  if withFSM.currentState = State.idle then NPCEnterIdle withFSM
  else withFSM

/-- raylib `Vector2Subtract`. -/
def Vector2Subtract (v1 v2 : Vector2) : Vector2 := ⟨v1.x - v2.x, v1.y - v2.y⟩

/-- raylib `Vector2Add`. -/
def Vector2Add (v1 v2 : Vector2) : Vector2 := ⟨v1.x + v2.x, v1.y + v2.y⟩

/-- raylib `Vector2Scale`. -/
def Vector2Scale (v : Vector2) (scale : ℚ) : Vector2 := ⟨v.x * scale, v.y * scale⟩

/-- raylib `Vector2Distance`: the euclidean distance between two
points.  `sqrtf` is idealized as the exact square root (`Rat.sqrt` is
exact on the perfect-square inputs used in this development). -/
def Vector2Distance (v1 v2 : Vector2) : ℚ :=
  Rat.sqrt ((v1.x - v2.x) * (v1.x - v2.x) + (v1.y - v2.y) * (v1.y - v2.y))

/-- raylib `Vector2Normalize`: scale the vector to unit length, or
return the zero vector when the length is zero. -/
def Vector2Normalize (v : Vector2) : Vector2 :=
  let length := Rat.sqrt (v.x * v.x + v.y * v.y)
  if length > 0 then ⟨v.x / length, v.y / length⟩ else ⟨0, 0⟩

/-- cute_c2's `c2CircletoCircle` (vendored header, not under `src/`):
true iff the squared center distance is strictly below the squared sum
of the radii. -/
def c2CircletoCircle (A B : c2Circle) : Bool :=
  let c := Vector2Subtract B.p A.p
  let d2 := c.x * c.x + c.y * c.y
  let r2 := (A.r + B.r) * (A.r + B.r)
  decide (d2 < r2)

/-- `CheckCollision` from `src/src/gameobject.cpp`: first the
circle-to-circle overlap test on the colliders, then the threshold test
comparing the distance between the entity positions against the summed
radii minus `COLLISION_BUFFER`. -/
def CheckCollision (lhs rhs : GameObject) : Bool :=
  let isColliding := c2CircletoCircle lhs.collider rhs.collider
  if !isColliding then false
  else
    let distance := Vector2Distance lhs.position rhs.position
    let totalRadii := lhs.collider.r + rhs.collider.r
    decide (distance < totalRadii - COLLISION_BUFFER)

/-- `HandleCollision` from `src/src/gameobject.cpp`: subtract 5 health
from `lhs`, recolor `rhs` red, and push `lhs`'s position back by
`COLLISION_PUSH_BACK` along the normalized direction from `rhs` to
`lhs`.  Returns the updated `(lhs, rhs)` pair. -/
def HandleCollision (lhs rhs : GameObject) : GameObject × GameObject :=
  let lhs := { lhs with health := lhs.health - 5 }
  let rhs := { rhs with color := RED }
  let collisionDirection := Vector2Subtract lhs.position rhs.position
  let collisionDirection := Vector2Normalize collisionDirection
  let lhs := { lhs with
               position := Vector2Add lhs.position
                 (Vector2Scale collisionDirection COLLISION_PUSH_BACK) }
  (lhs, rhs)

/-- The `Mediator` struct from `src/include/utils/mediator.h`: a
non-owning, possibly-NULL reference to one entity. -/
structure Mediator : Type where
  obj : Option GameObject

/-- `CreateMediator` (`src/src/mediator.cpp`): bind the given (possibly
NULL) entity. -/
def CreateMediator (obj : Option GameObject) : Mediator := ⟨obj⟩

/-- `MediatorExecuteCommand` from `src/src/mediator.cpp`.  The first
component of the result is the (unchanged or updated) mediator, `none`
standing for a NULL mediator pointer; the second component records
whether the NULL-check error branch was taken (the
`printf("Error: ...")` report).  Mapped commands dispatch the mapped
event to the bound entity through `HandleEvent`; the diagonal move
commands and `COMMAND_COUNT` fall into the `default` branch and
dispatch nothing. -/
def MediatorExecuteCommand (command : Command) (mediator : Option Mediator)
    (dt : ℚ) : Option Mediator × Bool :=
  match mediator with
  | none => (none, true)
  | some m =>
    match m.obj with
    | none => (some m, true)
    | some obj =>
      let dispatch := fun (event : Event) =>
        ((some ⟨some (HandleEvent obj event dt)⟩ : Option Mediator), false)
      match command with
      | .none => dispatch .none
      | .moveUp => dispatch .move
      | .moveDown => dispatch .move
      | .moveLeft => dispatch .move
      | .moveRight => dispatch .move
      | .attack => dispatch .attack
      | .collisionStart => dispatch .die
      | .collisionEnd => dispatch .respawn
      | _ => (some m, false)

/-! Helper lemmas: lifecycle callbacks (Entry/Exit slots) never change
the state bookkeeping fields of an entity. -/

theorem tickAnimation_currentState (obj : GameObject) (dt : ℚ) :
    (tickAnimation obj dt).currentState = obj.currentState := rfl

theorem tickAnimation_previousState (obj : GameObject) (dt : ℚ) :
    (tickAnimation obj dt).previousState = obj.previousState := rfl

theorem tickAnimation_stateConfigs (obj : GameObject) (dt : ℚ) :
    (tickAnimation obj dt).stateConfigs = obj.stateConfigs := rfl

theorem PlayerEnterIdle_currentState (obj : GameObject) :
    (PlayerEnterIdle obj).currentState = obj.currentState := by
  unfold PlayerEnterIdle
  split <;> rfl

theorem PlayerEnterIdle_previousState (obj : GameObject) :
    (PlayerEnterIdle obj).previousState = obj.previousState := by
  unfold PlayerEnterIdle
  split <;> rfl

theorem PlayerEnterIdle_stateConfigs (obj : GameObject) :
    (PlayerEnterIdle obj).stateConfigs = obj.stateConfigs := by
  unfold PlayerEnterIdle
  split <;> rfl

theorem NPCEnterIdle_currentState (obj : GameObject) :
    (NPCEnterIdle obj).currentState = obj.currentState := by
  unfold NPCEnterIdle
  split <;> rfl

theorem NPCEnterIdle_previousState (obj : GameObject) :
    (NPCEnterIdle obj).previousState = obj.previousState := by
  unfold NPCEnterIdle
  split <;> rfl

theorem NPCEnterIdle_stateConfigs (obj : GameObject) :
    (NPCEnterIdle obj).stateConfigs = obj.stateConfigs := by
  unfold NPCEnterIdle
  split <;> rfl

theorem runLifecycleFn_currentState (f : LifecycleFn) (dt : ℚ) (obj : GameObject) :
    (runLifecycleFn f dt obj).currentState = obj.currentState := by
  cases f <;>
    first
      | rfl
      | exact PlayerEnterIdle_currentState _
      | exact NPCEnterIdle_currentState _

theorem runLifecycleFn_previousState (f : LifecycleFn) (dt : ℚ) (obj : GameObject) :
    (runLifecycleFn f dt obj).previousState = obj.previousState := by
  cases f <;>
    first
      | rfl
      | exact PlayerEnterIdle_previousState _
      | exact NPCEnterIdle_previousState _

theorem runLifecycleFn_stateConfigs (f : LifecycleFn) (dt : ℚ) (obj : GameObject) :
    (runLifecycleFn f dt obj).stateConfigs = obj.stateConfigs := by
  cases f <;>
    first
      | rfl
      | exact PlayerEnterIdle_stateConfigs _
      | exact NPCEnterIdle_stateConfigs _

theorem runOptLifecycle_currentState (f : Option LifecycleFn) (dt : ℚ) (obj : GameObject) :
    (runOptLifecycle f dt obj).currentState = obj.currentState := by
  cases f with
  | none => rfl
  | some g => exact runLifecycleFn_currentState g dt obj

theorem runOptLifecycle_previousState (f : Option LifecycleFn) (dt : ℚ) (obj : GameObject) :
    (runOptLifecycle f dt obj).previousState = obj.previousState := by
  cases f with
  | none => rfl
  | some g => exact runLifecycleFn_previousState g dt obj

theorem runOptLifecycle_stateConfigs (f : Option LifecycleFn) (dt : ℚ) (obj : GameObject) :
    (runOptLifecycle f dt obj).stateConfigs = obj.stateConfigs := by
  cases f with
  | none => rfl
  | some g => exact runLifecycleFn_stateConfigs g dt obj

/-- On a whitelisted transition, `ChangeState` lands on the target with
`previousState` recording the old current state, the table untouched,
and reports success. -/
theorem ChangeState_of_mem {obj : GameObject} {target : State} (dt : ℚ)
    (h : target ∈ (obj.stateConfigs obj.currentState).nextStates) :
    (ChangeState obj target dt).1.currentState = target ∧
    (ChangeState obj target dt).1.previousState = obj.currentState ∧
    (ChangeState obj target dt).1.stateConfigs = obj.stateConfigs ∧
    (ChangeState obj target dt).2 = true := by
  unfold ChangeState CanEnterState
  rw [if_pos (by simpa using h)]
  refine ⟨?_, ?_, ?_, rfl⟩
  · rw [runOptLifecycle_currentState]
  · rw [runOptLifecycle_previousState]
    exact runOptLifecycle_currentState _ _ _
  · simp [runOptLifecycle_stateConfigs]

/-- A transition outside the whitelist leaves the object untouched and
reports failure. -/
theorem ChangeState_of_not_mem {obj : GameObject} {target : State} (dt : ℚ)
    (h : target ∉ (obj.stateConfigs obj.currentState).nextStates) :
    ChangeState obj target dt = (obj, false) := by
  unfold ChangeState CanEnterState
  rw [if_neg (by simpa using h)]

theorem InitPlayer_currentState (name : String) (tex : ℕ) (rng : List ℕ) :
    (InitPlayer name tex rng).currentState = State.idle := rfl

theorem InitPlayer_previousState (name : String) (tex : ℕ) (rng : List ℕ) :
    (InitPlayer name tex rng).previousState = State.count := rfl

theorem InitPlayer_stateConfigs (name : String) (tex : ℕ) (rng : List ℕ) :
    (InitPlayer name tex rng).stateConfigs = playerStateConfigs := rfl

theorem InitNPC_currentState (name : String) (tex : ℕ) (rng : List ℕ) :
    (InitNPC name tex rng).currentState = State.idle := rfl

theorem InitNPC_stateConfigs (name : String) (tex : ℕ) (rng : List ℕ) :
    (InitNPC name tex rng).stateConfigs = npcStateConfigs := rfl

/-- One `HandleEvent` dispatch of `EVENT_NONE` while Idle: the player's
Idle handler only refreshes `previousState`, the NPC's ignores the
event; neither calls `ChangeState`, so the state and the table are kept. -/
theorem handleEvent_none_idle_step (obj : GameObject) (dt : ℚ)
    (ht : obj.stateConfigs = playerStateConfigs ∨ obj.stateConfigs = npcStateConfigs)
    (hc : obj.currentState = State.idle) :
    (HandleEvent obj Event.none dt).currentState = State.idle ∧
    (HandleEvent obj Event.none dt).stateConfigs = obj.stateConfigs := by
  rcases ht with ht | ht
  · simp [HandleEvent, ht, hc, playerStateConfigs, runEventFn, PlayerIdleHandleEvent]
  · simp [HandleEvent, ht, hc, npcStateConfigs, runEventFn, NPCIdleHandleEvent]

/-- Iterating `HandleEvent`/`EVENT_NONE` from Idle keeps the entity in
Idle and keeps its state table, for both entity kinds. -/
theorem iterate_handleEvent_none_idle (n : ℕ) (obj : GameObject) (dt : ℚ)
    (ht : obj.stateConfigs = playerStateConfigs ∨ obj.stateConfigs = npcStateConfigs)
    (hc : obj.currentState = State.idle) :
    ((fun o => HandleEvent o Event.none dt)^[n] obj).currentState = State.idle ∧
    ((fun o => HandleEvent o Event.none dt)^[n] obj).stateConfigs = obj.stateConfigs := by
  induction n generalizing obj with
  | zero => exact ⟨hc, rfl⟩
  | succ k ih =>
    rw [Function.iterate_succ_apply]
    obtain ⟨hc', hcfg'⟩ := handleEvent_none_idle_step obj dt ht hc
    obtain ⟨ihc, ihcfg⟩ := ih (HandleEvent obj Event.none dt)
      (by rw [hcfg']; exact ht) hc'
    exact ⟨ihc, by rw [ihcfg, hcfg']⟩

/-- C1: For every player or NPC entity and every (current, target) state
pair, `ChangeState(entity, target)` succeeds exactly when the target is
listed in the current state's `nextStates` whitelist.  On success it
runs the current state's Exit callback (if present) on the
pre-transition object, then records `previousState = currentState` and
sets `currentState = target`, then runs the target state's Entry
callback (if present), and returns true.  On failure it returns false,
the object is returned unchanged (so `currentState` and `previousState`
are untouched), and no lifecycle callback runs. -/
theorem C1_changeState_whitelist_and_lifecycle (obj : GameObject)
    (target : State) (dt : ℚ)
    (_htable : obj.stateConfigs = playerStateConfigs ∨
               obj.stateConfigs = npcStateConfigs) :
    ((ChangeState obj target dt).2 = true ↔
      target ∈ (obj.stateConfigs obj.currentState).nextStates) ∧
    (target ∉ (obj.stateConfigs obj.currentState).nextStates →
      ChangeState obj target dt = (obj, false)) ∧
    (target ∈ (obj.stateConfigs obj.currentState).nextStates →
      (ChangeState obj target dt).1 =
        runOptLifecycle (obj.stateConfigs target).Entry dt
          { runOptLifecycle (obj.stateConfigs obj.currentState).Exit dt obj with
            previousState :=
              (runOptLifecycle (obj.stateConfigs obj.currentState).Exit dt
                obj).currentState
            currentState := target } ∧
      (ChangeState obj target dt).1.currentState = target ∧
      (ChangeState obj target dt).1.previousState = obj.currentState) := by
  refine ⟨?_, fun h => ChangeState_of_not_mem dt h, fun h => ?_⟩
  · constructor
    · intro hsucc
      by_contra hmem
      have := ChangeState_of_not_mem dt hmem
      rw [this] at hsucc
      exact Bool.false_ne_true hsucc
    · intro hmem
      exact (ChangeState_of_mem dt hmem).2.2.2
  · obtain ⟨h1, h2, _h3, _h4⟩ := ChangeState_of_mem dt h
    refine ⟨?_, h1, h2⟩
    unfold ChangeState CanEnterState
    rw [if_pos (by simpa using h)]

/-- Witness for C1 at a freshly initialized player requesting the
Idle-to-Walking transition. -/
theorem C1_changeState_whitelist_and_lifecycle_witness :
    ((ChangeState (InitPlayer "Hero" 1 []) State.walking 0).2 = true ↔
      State.walking ∈
        ((InitPlayer "Hero" 1 []).stateConfigs
          (InitPlayer "Hero" 1 []).currentState).nextStates) ∧
    (State.walking ∉
        ((InitPlayer "Hero" 1 []).stateConfigs
          (InitPlayer "Hero" 1 []).currentState).nextStates →
      ChangeState (InitPlayer "Hero" 1 []) State.walking 0 =
        (InitPlayer "Hero" 1 [], false)) ∧
    (State.walking ∈
        ((InitPlayer "Hero" 1 []).stateConfigs
          (InitPlayer "Hero" 1 []).currentState).nextStates →
      (ChangeState (InitPlayer "Hero" 1 []) State.walking 0).1 =
        runOptLifecycle
          ((InitPlayer "Hero" 1 []).stateConfigs State.walking).Entry 0
          { runOptLifecycle
              ((InitPlayer "Hero" 1 []).stateConfigs
                (InitPlayer "Hero" 1 []).currentState).Exit 0
              (InitPlayer "Hero" 1 []) with
            previousState :=
              (runOptLifecycle
                ((InitPlayer "Hero" 1 []).stateConfigs
                  (InitPlayer "Hero" 1 []).currentState).Exit 0
                (InitPlayer "Hero" 1 [])).currentState
            currentState := State.walking } ∧
      (ChangeState (InitPlayer "Hero" 1 []) State.walking 0).1.currentState =
        State.walking ∧
      (ChangeState (InitPlayer "Hero" 1 []) State.walking 0).1.previousState =
        (InitPlayer "Hero" 1 []).currentState) :=
  C1_changeState_whitelist_and_lifecycle (InitPlayer "Hero" 1 [])
    State.walking 0 (Or.inl (InitPlayer_stateConfigs "Hero" 1 []))

/-- C6: For every state that an entity's table marks as an empty
placeholder — the player's `STATE_COLLISION`, the NPC's
`STATE_WALKING`, `STATE_RESPAWN` and `STATE_COLLISION` — the config is
exactly `EMPTY_STATE_CONFIG` (NULL name, all callbacks NULL, empty
whitelist), and both `HandleEvent` with any event and `UpdateState`
leave the entity completely unchanged (no field, in particular
position, health or animation, is mutated). -/
theorem C6_empty_placeholder_states_inert (obj : GameObject) (event : Event)
    (dt : ℚ)
    (h : (obj.stateConfigs = playerStateConfigs ∧
            obj.currentState = State.collision) ∨
         (obj.stateConfigs = npcStateConfigs ∧
            (obj.currentState = State.walking ∨
             obj.currentState = State.respawn ∨
             obj.currentState = State.collision))) :
    obj.stateConfigs obj.currentState = EMPTY_STATE_CONFIG ∧
    HandleEvent obj event dt = obj ∧
    UpdateState obj dt = obj := by
  have hempty : obj.stateConfigs obj.currentState = EMPTY_STATE_CONFIG := by
    rcases h with ⟨ht, hc⟩ | ⟨ht, hc | hc | hc⟩ <;> rw [ht, hc] <;> rfl
  refine ⟨hempty, ?_, ?_⟩
  · simp [HandleEvent, hempty, EMPTY_STATE_CONFIG]
  · simp [UpdateState, hempty, EMPTY_STATE_CONFIG]

/-- Witness for C6 at a concrete NPC sitting in the placeholder
`STATE_WALKING`. -/
theorem C6_empty_placeholder_states_inert_witness :
    ({ InitNPC "Guard" 2 [] with currentState := State.walking }.stateConfigs
        { InitNPC "Guard" 2 [] with currentState := State.walking }.currentState
      = EMPTY_STATE_CONFIG) ∧
    HandleEvent { InitNPC "Guard" 2 [] with currentState := State.walking }
        Event.attack 0 =
      { InitNPC "Guard" 2 [] with currentState := State.walking } ∧
    UpdateState { InitNPC "Guard" 2 [] with currentState := State.walking } 0 =
      { InitNPC "Guard" 2 [] with currentState := State.walking } :=
  C6_empty_placeholder_states_inert
    { InitNPC "Guard" 2 [] with currentState := State.walking }
    Event.attack 0 (Or.inr ⟨rfl, Or.inl rfl⟩)

/-- C7: Repeated `HandleEvent(entity, EVENT_NONE)` while the entity is
in Idle never changes state: after any number of dispatches the entity
is still in `STATE_IDLE`, and this is a self-loop rather than a table
transition — `STATE_IDLE` is not in Idle's own whitelist, so no
successful `ChangeState` could have produced it. -/
theorem C7_idle_none_dispatch_self_loop (n : ℕ) (obj : GameObject) (dt : ℚ)
    (ht : obj.stateConfigs = playerStateConfigs ∨
          obj.stateConfigs = npcStateConfigs)
    (hc : obj.currentState = State.idle) :
    ((fun o => HandleEvent o Event.none dt)^[n] obj).currentState =
      State.idle ∧
    State.idle ∉ (obj.stateConfigs State.idle).nextStates := by
  refine ⟨(iterate_handleEvent_none_idle n obj dt ht hc).1, ?_⟩
  rcases ht with ht | ht <;> rw [ht] <;> decide

/-- Witness for C7: three `EVENT_NONE` dispatches on a fresh player. -/
theorem C7_idle_none_dispatch_self_loop_witness :
    ((fun o => HandleEvent o Event.none 0)^[3]
        (InitPlayer "Hero" 1 [])).currentState = State.idle ∧
    State.idle ∉
      ((InitPlayer "Hero" 1 []).stateConfigs State.idle).nextStates :=
  C7_idle_none_dispatch_self_loop 3 (InitPlayer "Hero" 1 []) 0
    (Or.inl (InitPlayer_stateConfigs "Hero" 1 []))
    (InitPlayer_currentState "Hero" 1 [])

/-- C3 counterexample: a freshly initialized NPC sent to `STATE_DEAD`
by an `EVENT_DIE` dispatch stays in `STATE_DEAD` after one
`UpdateState` call — `NPCUpdateDead` only advances the animation and
never requests the Dead-to-Idle transition, so a single Tick does not
move the NPC to `STATE_IDLE` as the claim states. -/
theorem C3_counterexample :
    (HandleEvent (InitNPC "Baddie" 2 []) Event.die 0).currentState =
      State.dead ∧
    (UpdateState (HandleEvent (InitNPC "Baddie" 2 []) Event.die 0)
        0).currentState = State.dead ∧
    State.dead ≠ State.idle :=
  ⟨rfl, rfl, by decide⟩

/-- C3 (amended): the NPC's Dead state whitelists only `STATE_IDLE`
(no intermediate Respawn, unlike the player whose Dead state whitelists
only `STATE_RESPAWN`), but the Dead-to-Idle transition is not taken by
`UpdateState`: a Tick while in `STATE_DEAD` leaves the NPC in
`STATE_DEAD` (it only advances the animation).  The direct Dead-to-Idle
transition is taken on dispatch of `EVENT_NONE` or `EVENT_RESPAWN`. -/
theorem C3_amended_npc_dead_lifecycle (obj : GameObject) (dt : ℚ)
    (ht : obj.stateConfigs = npcStateConfigs)
    (hc : obj.currentState = State.dead) :
    (npcStateConfigs State.dead).nextStates = [State.idle] ∧
    (playerStateConfigs State.dead).nextStates = [State.respawn] ∧
    (UpdateState obj dt).currentState = State.dead ∧
    (HandleEvent obj Event.none dt).currentState = State.idle ∧
    (HandleEvent obj Event.none dt).previousState = State.dead ∧
    (HandleEvent obj Event.respawn dt).currentState = State.idle := by
  have hmem : State.idle ∈ (obj.stateConfigs obj.currentState).nextStates := by
    rw [ht, hc]; decide
  refine ⟨rfl, rfl, ?_, ?_, ?_, ?_⟩
  · simp [UpdateState, ht, hc, npcStateConfigs, runUpdateFn, NPCUpdateDead,
      tickAnimation]
  · simp only [HandleEvent, ht, hc, npcStateConfigs, runEventFn,
      NPCDeadHandleEvent]
    exact (ChangeState_of_mem dt hmem).1
  · simp only [HandleEvent, ht, hc, npcStateConfigs, runEventFn,
      NPCDeadHandleEvent]
    rw [(ChangeState_of_mem dt hmem).2.1, hc]
  · simp only [HandleEvent, ht, hc, npcStateConfigs, runEventFn,
      NPCDeadHandleEvent]
    exact (ChangeState_of_mem dt hmem).1

/-- Witness for the amended C3 at a concrete dead NPC. -/
theorem C3_amended_npc_dead_lifecycle_witness :
    (npcStateConfigs State.dead).nextStates = [State.idle] ∧
    (playerStateConfigs State.dead).nextStates = [State.respawn] ∧
    (UpdateState (HandleEvent (InitNPC "Baddie" 2 []) Event.die 0)
        0).currentState = State.dead ∧
    (HandleEvent (HandleEvent (InitNPC "Baddie" 2 []) Event.die 0)
        Event.none 0).currentState = State.idle ∧
    (HandleEvent (HandleEvent (InitNPC "Baddie" 2 []) Event.die 0)
        Event.none 0).previousState = State.dead ∧
    (HandleEvent (HandleEvent (InitNPC "Baddie" 2 []) Event.die 0)
        Event.respawn 0).currentState = State.idle :=
  C3_amended_npc_dead_lifecycle
    (HandleEvent (InitNPC "Baddie" 2 []) Event.die 0) 0 rfl rfl

/-- Dispatching `EVENT_MOVE` to a player in Idle lands in Walking. -/
theorem player_idle_move_step (obj : GameObject) (dt : ℚ)
    (ht : obj.stateConfigs = playerStateConfigs)
    (hc : obj.currentState = State.idle) :
    (HandleEvent obj Event.move dt).currentState = State.walking ∧
    (HandleEvent obj Event.move dt).previousState = State.idle ∧
    (HandleEvent obj Event.move dt).stateConfigs = playerStateConfigs := by
  have hmem : State.walking ∈ (obj.stateConfigs obj.currentState).nextStates := by
    rw [ht, hc]; decide
  obtain ⟨h1, h2, h3, _⟩ := ChangeState_of_mem dt hmem
  simp only [HandleEvent, ht, hc, playerStateConfigs, runEventFn,
    PlayerIdleHandleEvent]
  exact ⟨h1, by rw [h2, hc], by rw [h3, ht]⟩

/-- Dispatching `EVENT_ATTACK` to a player in Walking lands in
Attacking. -/
theorem player_walking_attack_step (obj : GameObject) (dt : ℚ)
    (ht : obj.stateConfigs = playerStateConfigs)
    (hc : obj.currentState = State.walking) :
    (HandleEvent obj Event.attack dt).currentState = State.attacking ∧
    (HandleEvent obj Event.attack dt).previousState = State.walking ∧
    (HandleEvent obj Event.attack dt).stateConfigs = playerStateConfigs := by
  have hmem : State.attacking ∈ (obj.stateConfigs obj.currentState).nextStates := by
    rw [ht, hc]; decide
  obtain ⟨h1, h2, h3, _⟩ := ChangeState_of_mem dt hmem
  simp only [HandleEvent, ht, hc, playerStateConfigs, runEventFn,
    PlayerWalkingHandleEvent]
  exact ⟨h1, by rw [h2, hc], by rw [h3, ht]⟩

/-- Dispatching `EVENT_DIE` to a player in Attacking lands in Dead. -/
theorem player_attacking_die_step (obj : GameObject) (dt : ℚ)
    (ht : obj.stateConfigs = playerStateConfigs)
    (hc : obj.currentState = State.attacking) :
    (HandleEvent obj Event.die dt).currentState = State.dead ∧
    (HandleEvent obj Event.die dt).previousState = State.attacking ∧
    (HandleEvent obj Event.die dt).stateConfigs = playerStateConfigs := by
  have hmem : State.dead ∈ (obj.stateConfigs obj.currentState).nextStates := by
    rw [ht, hc]; decide
  obtain ⟨h1, h2, h3, _⟩ := ChangeState_of_mem dt hmem
  simp only [HandleEvent, ht, hc, playerStateConfigs, runEventFn,
    PlayerAttackingHandleEvent]
  exact ⟨h1, by rw [h2, hc], by rw [h3, ht]⟩

/-- One Tick on a player in Dead: `PlayerUpdateDie` unconditionally
transitions to Respawn. -/
theorem player_dead_tick_step (obj : GameObject) (dt : ℚ)
    (ht : obj.stateConfigs = playerStateConfigs)
    (hc : obj.currentState = State.dead) :
    (UpdateState obj dt).currentState = State.respawn ∧
    (UpdateState obj dt).previousState = State.dead ∧
    (UpdateState obj dt).stateConfigs = playerStateConfigs := by
  have hmem : State.respawn ∈ (obj.stateConfigs obj.currentState).nextStates := by
    rw [ht, hc]; decide
  obtain ⟨h1, h2, h3, _⟩ := ChangeState_of_mem dt hmem
  simp only [UpdateState, ht, hc, playerStateConfigs, runUpdateFn,
    PlayerUpdateDie, tickAnimation_currentState, tickAnimation_previousState,
    tickAnimation_stateConfigs]
  exact ⟨h1, by rw [h2, hc], by rw [h3, ht]⟩

/-- One Tick on a player in Respawn: `PlayerUpdateRespawn`
unconditionally transitions back to Idle. -/
theorem player_respawn_tick_step (obj : GameObject) (dt : ℚ)
    (ht : obj.stateConfigs = playerStateConfigs)
    (hc : obj.currentState = State.respawn) :
    (UpdateState obj dt).currentState = State.idle ∧
    (UpdateState obj dt).previousState = State.respawn ∧
    (UpdateState obj dt).stateConfigs = playerStateConfigs := by
  have hmem : State.idle ∈ (obj.stateConfigs obj.currentState).nextStates := by
    rw [ht, hc]; decide
  obtain ⟨h1, h2, h3, _⟩ := ChangeState_of_mem dt hmem
  simp only [UpdateState, ht, hc, playerStateConfigs, runUpdateFn,
    PlayerUpdateRespawn, tickAnimation_currentState, tickAnimation_previousState,
    tickAnimation_stateConfigs]
  exact ⟨h1, by rw [h2, hc], by rw [h3, ht]⟩

/-- C2: starting from a freshly initialized player (Idle), dispatching
`EVENT_MOVE` reaches Walking, then `EVENT_ATTACK` reaches Attacking,
then `EVENT_DIE` reaches Dead; one `UpdateState` call in Dead
unconditionally reaches Respawn and one more in Respawn reaches Idle —
after the full cycle `currentState = STATE_IDLE` and
`previousState = STATE_RESPAWN`, for every rand stream and every
per-call frame delta. -/
theorem C2_player_full_cycle (name : String) (tex : ℕ) (rng : List ℕ)
    (dt1 dt2 dt3 dt4 dt5 : ℚ) :
    (InitPlayer name tex rng).currentState = State.idle ∧
    (HandleEvent (InitPlayer name tex rng) Event.move dt1).currentState =
      State.walking ∧
    (HandleEvent (HandleEvent (InitPlayer name tex rng) Event.move dt1)
        Event.attack dt2).currentState = State.attacking ∧
    (HandleEvent (HandleEvent (HandleEvent (InitPlayer name tex rng)
        Event.move dt1) Event.attack dt2) Event.die dt3).currentState =
      State.dead ∧
    (UpdateState (HandleEvent (HandleEvent (HandleEvent
        (InitPlayer name tex rng) Event.move dt1) Event.attack dt2)
        Event.die dt3) dt4).currentState = State.respawn ∧
    (UpdateState (UpdateState (HandleEvent (HandleEvent (HandleEvent
        (InitPlayer name tex rng) Event.move dt1) Event.attack dt2)
        Event.die dt3) dt4) dt5).currentState = State.idle ∧
    (UpdateState (UpdateState (HandleEvent (HandleEvent (HandleEvent
        (InitPlayer name tex rng) Event.move dt1) Event.attack dt2)
        Event.die dt3) dt4) dt5).previousState = State.respawn := by
  obtain ⟨h1c, _, h1t⟩ := player_idle_move_step (InitPlayer name tex rng) dt1
    (InitPlayer_stateConfigs name tex rng) (InitPlayer_currentState name tex rng)
  obtain ⟨h2c, _, h2t⟩ := player_walking_attack_step _ dt2 h1t h1c
  obtain ⟨h3c, _, h3t⟩ := player_attacking_die_step _ dt3 h2t h2c
  obtain ⟨h4c, _, h4t⟩ := player_dead_tick_step _ dt4 h3t h3c
  obtain ⟨h5c, h5p, _⟩ := player_respawn_tick_step _ dt5 h4t h4c
  exact ⟨InitPlayer_currentState name tex rng, h1c, h2c, h3c, h4c, h5c, h5p⟩

/-- Place an entity at a given position with a radius-`r` circle
collider centered there (collider and position in sync, as the game
maintains them). -/
def placedAt (obj : GameObject) (p : Vector2) (r : ℚ) : GameObject :=
  { obj with position := p, collider := ⟨p, r⟩ }

/-- The exact square root of a perfect rational square. -/
theorem Rat_sqrt_of_sq {a q : ℚ} (h0 : 0 ≤ a) (h : q = a * a) :
    Rat.sqrt q = a := by
  rw [h, Rat.sqrt_eq, abs_of_nonneg h0]

/-- C4 counterexample: for a player at (1,0) (collider in sync) pushed
back from an NPC at the origin, `HandleCollision` moves the player's
position to (3,0) but leaves the collider center at (1,0): the damaged
entity's collider center is NOT updated to match its new position,
contrary to the claim. -/
theorem C4_counterexample :
    (HandleCollision (placedAt (InitPlayer "Hero" 1 []) ⟨1, 0⟩ 10)
        (placedAt (InitNPC "Baddie" 2 []) ⟨0, 0⟩ 10)).1.position = ⟨3, 0⟩ ∧
    (HandleCollision (placedAt (InitPlayer "Hero" 1 []) ⟨1, 0⟩ 10)
        (placedAt (InitNPC "Baddie" 2 []) ⟨0, 0⟩ 10)).1.collider.p = ⟨1, 0⟩ ∧
    (HandleCollision (placedAt (InitPlayer "Hero" 1 []) ⟨1, 0⟩ 10)
        (placedAt (InitNPC "Baddie" 2 []) ⟨0, 0⟩ 10)).1.collider.p ≠
      (HandleCollision (placedAt (InitPlayer "Hero" 1 []) ⟨1, 0⟩ 10)
        (placedAt (InitNPC "Baddie" 2 []) ⟨0, 0⟩ 10)).1.position := by
  have hsqrt : Rat.sqrt ((1 - 0) * (1 - 0) + (0 - 0) * (0 - 0) : ℚ) = 1 :=
    Rat_sqrt_of_sq (by norm_num) (by norm_num)
  have hpos : (HandleCollision (placedAt (InitPlayer "Hero" 1 []) ⟨1, 0⟩ 10)
      (placedAt (InitNPC "Baddie" 2 []) ⟨0, 0⟩ 10)).1.position =
      (⟨3, 0⟩ : Vector2) := by
    simp only [HandleCollision, placedAt, Vector2Subtract, Vector2Normalize,
      Vector2Add, Vector2Scale, COLLISION_PUSH_BACK]
    rw [hsqrt]
    norm_num
  have hcol : (HandleCollision (placedAt (InitPlayer "Hero" 1 []) ⟨1, 0⟩ 10)
      (placedAt (InitNPC "Baddie" 2 []) ⟨0, 0⟩ 10)).1.collider.p =
      (⟨1, 0⟩ : Vector2) := rfl
  refine ⟨hpos, hcol, ?_⟩
  rw [hpos, hcol]
  intro h
  exact absurd (congrArg Vector2.x h) (by norm_num)

/-- C4 (amended): `HandleCollision(lhs, rhs)` subtracts the fixed 5
damage from `lhs.health`, recolors `rhs` with the `RED` feedback color
(touching nothing else on `rhs`), and pushes `lhs.position` along the
normalized separation vector from `rhs` to `lhs` by
`COLLISION_PUSH_BACK`; the damaged entity's collider center is left
unchanged — it is NOT synchronized with the new position. -/
theorem C4_amended_handleCollision (lhs rhs : GameObject) :
    (HandleCollision lhs rhs).1 =
      { lhs with
        health := lhs.health - 5
        position := Vector2Add lhs.position
          (Vector2Scale
            (Vector2Normalize (Vector2Subtract lhs.position rhs.position))
            COLLISION_PUSH_BACK) } ∧
    (HandleCollision lhs rhs).2 = { rhs with color := RED } ∧
    (HandleCollision lhs rhs).1.collider = lhs.collider :=
  ⟨rfl, rfl, rfl⟩

/-- C9: `CheckCollision` returns true exactly when the cute_c2
circle-to-circle test on the colliders passes AND the distance between
the entity positions is strictly below the summed radii minus
`COLLISION_BUFFER`; with radii 10 and 10 and the 2.0 buffer, center
distance 17 collides (17 < 18) and center distance 19 does not. -/
theorem C9_checkCollision_threshold (lhs rhs : GameObject) :
    (CheckCollision lhs rhs =
      (c2CircletoCircle lhs.collider rhs.collider &&
        decide (Vector2Distance lhs.position rhs.position <
          lhs.collider.r + rhs.collider.r - COLLISION_BUFFER))) ∧
    CheckCollision (placedAt (InitPlayer "Hero" 1 []) ⟨17, 0⟩ 10)
      (placedAt (InitNPC "Baddie" 2 []) ⟨0, 0⟩ 10) = true ∧
    CheckCollision (placedAt (InitPlayer "Hero" 1 []) ⟨19, 0⟩ 10)
      (placedAt (InitNPC "Baddie" 2 []) ⟨0, 0⟩ 10) = false := by
  refine ⟨?_, ?_, ?_⟩
  · cases hcc : c2CircletoCircle lhs.collider rhs.collider <;>
      simp [CheckCollision, hcc]
  · have hsqrt : Rat.sqrt ((17 - 0) * (17 - 0) + (0 - 0) * (0 - 0) : ℚ) = 17 :=
      Rat_sqrt_of_sq (by norm_num) (by norm_num)
    simp only [CheckCollision, c2CircletoCircle, Vector2Distance,
      Vector2Subtract, placedAt, COLLISION_BUFFER]
    norm_num [hsqrt]
  · have hsqrt : Rat.sqrt ((19 - 0) * (19 - 0) + (0 - 0) * (0 - 0) : ℚ) = 19 :=
      Rat_sqrt_of_sq (by norm_num) (by norm_num)
    simp only [CheckCollision, c2CircletoCircle, Vector2Distance,
      Vector2Subtract, placedAt, COLLISION_BUFFER]
    norm_num [hsqrt]

/-- A 0.2 s `UpdateAnimation` call on a 6-frame, 0.2 s-per-frame
animation with a zeroed timer advances exactly one frame while the next
frame is still in range. -/
theorem updateAnimation_advance (tex : ℕ) (fr : List Rectangle) (k : ℤ)
    (loop : Bool) (hk : k + 1 < 6) :
    UpdateAnimation ⟨tex, fr, k, 6, 1/5, 0, true, loop⟩ (1/5) =
      ⟨tex, fr, k + 1, 6, 1/5, 0, true, loop⟩ := by
  simp [UpdateAnimation, show ¬((6:ℤ) ≤ k + 1) from by omega,
    show ((1:ℚ)/5 ≤ 0 + 1/5) from by norm_num]

/-- A 0.2 s `UpdateAnimation` call on the final frame of a 6-frame,
0.2 s-per-frame animation: wrap to frame 0 when looping, clamp to
frame 5 when not. -/
theorem updateAnimation_last (tex : ℕ) (fr : List Rectangle) (loop : Bool) :
    UpdateAnimation ⟨tex, fr, 5, 6, 1/5, 0, true, loop⟩ (1/5) =
      ⟨tex, fr, if loop then 0 else 5, 6, 1/5, 0, true, loop⟩ := by
  cases loop <;>
    simp [UpdateAnimation, show ((1:ℚ)/5 ≤ 0 + 1/5) from by norm_num]

/-- C8: for the animation initialized with 6 frames, 0.2 s per frame
and loop on, six `UpdateAnimation` calls of 0.2 s each (exactly 1.2 s
of elapsed time) advance exactly six frames — the index passes through
1, 2, 3, 4, 5 and lands back on 0.  With loop off, the same 1.2 s of
calls instead clamps the index at `frameCount - 1 = 5`, and any further
`UpdateAnimation` call with any elapsed time leaves it at 5. -/
theorem C8_animation_loop_and_clamp (a : AnimationData) (dt : ℚ)
    (hcount : a.frameCount = 6) (hloop : a.loop = false)
    (hframe : a.currentFrame = 5) (hactive : a.active = true) :
    (UpdateAnimation (InitAnimation 0 (frameRow 1280 64 6) 6 (1/5) true)
        (1/5)).currentFrame = 1 ∧
    (UpdateAnimation (UpdateAnimation
        (InitAnimation 0 (frameRow 1280 64 6) 6 (1/5) true)
        (1/5)) (1/5)).currentFrame = 2 ∧
    (UpdateAnimation (UpdateAnimation (UpdateAnimation
        (InitAnimation 0 (frameRow 1280 64 6) 6 (1/5) true)
        (1/5)) (1/5)) (1/5)).currentFrame = 3 ∧
    (UpdateAnimation (UpdateAnimation (UpdateAnimation (UpdateAnimation
        (InitAnimation 0 (frameRow 1280 64 6) 6 (1/5) true)
        (1/5)) (1/5)) (1/5)) (1/5)).currentFrame = 4 ∧
    (UpdateAnimation (UpdateAnimation (UpdateAnimation (UpdateAnimation
        (UpdateAnimation (InitAnimation 0 (frameRow 1280 64 6) 6 (1/5) true)
        (1/5)) (1/5)) (1/5)) (1/5)) (1/5)).currentFrame = 5 ∧
    (UpdateAnimation (UpdateAnimation (UpdateAnimation (UpdateAnimation
        (UpdateAnimation (UpdateAnimation
        (InitAnimation 0 (frameRow 1280 64 6) 6 (1/5) true)
        (1/5)) (1/5)) (1/5)) (1/5)) (1/5)) (1/5)).currentFrame = 0 ∧
    (UpdateAnimation (UpdateAnimation (UpdateAnimation (UpdateAnimation
        (UpdateAnimation (UpdateAnimation
        (InitAnimation 0 (frameRow 1280 64 6) 6 (1/5) false)
        (1/5)) (1/5)) (1/5)) (1/5)) (1/5)) (1/5)).currentFrame = 5 ∧
    (UpdateAnimation a dt).currentFrame = 5 := by
  have hIT : InitAnimation 0 (frameRow 1280 64 6) 6 (1/5) true =
      (⟨0, (frameRow 1280 64 6).take 6, 0, 6, 1/5, 0, true, true⟩ :
        AnimationData) := rfl
  have hIF : InitAnimation 0 (frameRow 1280 64 6) 6 (1/5) false =
      (⟨0, (frameRow 1280 64 6).take 6, 0, 6, 1/5, 0, true, false⟩ :
        AnimationData) := rfl
  have step : ∀ (k : ℤ) (loop : Bool), k + 1 < 6 →
      UpdateAnimation
        ⟨0, (frameRow 1280 64 6).take 6, k, 6, 1/5, 0, true, loop⟩ (1/5) =
      ⟨0, (frameRow 1280 64 6).take 6, k + 1, 6, 1/5, 0, true, loop⟩ :=
    fun k loop hk => updateAnimation_advance _ _ k loop hk
  have s1t := step 0 true (by norm_num)
  have s2t := step 1 true (by norm_num)
  have s3t := step 2 true (by norm_num)
  have s4t := step 3 true (by norm_num)
  have s5t := step 4 true (by norm_num)
  have s6t := updateAnimation_last 0 ((frameRow 1280 64 6).take 6) true
  have s1f := step 0 false (by norm_num)
  have s2f := step 1 false (by norm_num)
  have s3f := step 2 false (by norm_num)
  have s4f := step 3 false (by norm_num)
  have s5f := step 4 false (by norm_num)
  have s6f := updateAnimation_last 0 ((frameRow 1280 64 6).take 6) false
  norm_num at s1t s2t s3t s4t s5t s6t s1f s2f s3f s4f s5f s6f
  refine ⟨?_, ?_, ?_, ?_, ?_, ?_, ?_, ?_⟩
  · rw [hIT, s1t]
  · rw [hIT, s1t, s2t]
  · rw [hIT, s1t, s2t, s3t]
  · rw [hIT, s1t, s2t, s3t, s4t]
  · rw [hIT, s1t, s2t, s3t, s4t, s5t]
  · rw [hIT, s1t, s2t, s3t, s4t, s5t, s6t]
  · rw [hIF, s1f, s2f, s3f, s4f, s5f, s6f]
  · rcases le_or_lt a.frameDuration (a.frameTimer + dt) with h | h
    · simp [UpdateAnimation, hactive, hcount, hloop, hframe, h]
    · simp [UpdateAnimation, hactive, hframe, not_le.mpr h]

/-- Witness for C8 at the non-looping 6-frame animation already sitting
on its last frame, with a further 1-second delta. -/
theorem C8_animation_loop_and_clamp_witness :
    (UpdateAnimation (InitAnimation 0 (frameRow 1280 64 6) 6 (1/5) true)
        (1/5)).currentFrame = 1 ∧
    (UpdateAnimation (UpdateAnimation
        (InitAnimation 0 (frameRow 1280 64 6) 6 (1/5) true)
        (1/5)) (1/5)).currentFrame = 2 ∧
    (UpdateAnimation (UpdateAnimation (UpdateAnimation
        (InitAnimation 0 (frameRow 1280 64 6) 6 (1/5) true)
        (1/5)) (1/5)) (1/5)).currentFrame = 3 ∧
    (UpdateAnimation (UpdateAnimation (UpdateAnimation (UpdateAnimation
        (InitAnimation 0 (frameRow 1280 64 6) 6 (1/5) true)
        (1/5)) (1/5)) (1/5)) (1/5)).currentFrame = 4 ∧
    (UpdateAnimation (UpdateAnimation (UpdateAnimation (UpdateAnimation
        (UpdateAnimation (InitAnimation 0 (frameRow 1280 64 6) 6 (1/5) true)
        (1/5)) (1/5)) (1/5)) (1/5)) (1/5)).currentFrame = 5 ∧
    (UpdateAnimation (UpdateAnimation (UpdateAnimation (UpdateAnimation
        (UpdateAnimation (UpdateAnimation
        (InitAnimation 0 (frameRow 1280 64 6) 6 (1/5) true)
        (1/5)) (1/5)) (1/5)) (1/5)) (1/5)) (1/5)).currentFrame = 0 ∧
    (UpdateAnimation (UpdateAnimation (UpdateAnimation (UpdateAnimation
        (UpdateAnimation (UpdateAnimation
        (InitAnimation 0 (frameRow 1280 64 6) 6 (1/5) false)
        (1/5)) (1/5)) (1/5)) (1/5)) (1/5)) (1/5)).currentFrame = 5 ∧
    (UpdateAnimation
        { InitAnimation 0 (frameRow 1280 64 6) 6 (1/5) false with
          currentFrame := 5 } 1).currentFrame = 5 :=
  C8_animation_loop_and_clamp
    { InitAnimation 0 (frameRow 1280 64 6) 6 (1/5) false with
      currentFrame := 5 } 1 rfl rfl rfl rfl

/-- The Command-to-Event table actually implemented by
`MediatorExecuteCommand`: `none` marks the `default` switch branch,
which dispatches nothing (the four diagonal move commands and
`COMMAND_COUNT` fall there). -/
def commandToEvent : Command → Option Event
  | .none => some Event.none
  | .moveUp => some Event.move
  | .moveDown => some Event.move
  | .moveLeft => some Event.move
  | .moveRight => some Event.move
  | .attack => some Event.attack
  | .collisionStart => some Event.die
  | .collisionEnd => some Event.respawn
  | _ => Option.none

/-- The command dispatch as claim C5 words it: every `COMMAND_MOVE_*`
maps to `EVENT_MOVE`, `COMMAND_ATTACK` to `EVENT_ATTACK`,
`COMMAND_COLLISION_START` to `EVENT_DIE`, `COMMAND_COLLISION_END` to
`EVENT_RESPAWN`, and `COMMAND_NONE` or any unmapped command to
`EVENT_NONE`, always forwarding the mapped event to the bound entity
via `HandleEvent`.  (Comparison definition following the claim's words,
to be checked against `MediatorExecuteCommand`.) -/
def MediatorExecuteCommandSpec (command : Command) (mediator : Option Mediator)
    (dt : ℚ) : Option Mediator × Bool :=
  match mediator with
  | none => (none, true)
  | some m =>
    match m.obj with
    | none => (some m, true)
    | some obj =>
      let event : Event :=
        match command with
        | .moveUp | .moveUpRight | .moveUpLeft | .moveDown | .moveDownLeft
        | .moveDownRight | .moveLeft | .moveRight => Event.move
        | .attack => Event.attack
        | .collisionStart => Event.die
        | .collisionEnd => Event.respawn
        | _ => Event.none
      (some ⟨some (HandleEvent obj event dt)⟩, false)

/-- C5 counterexample: bind a mediator to a freshly initialized player
(Idle) and execute the diagonal command `COMMAND_MOVE_UP_LEFT`.  The
claim maps every `COMMAND_MOVE_*` to `EVENT_MOVE` and forwards it, which
from Idle would transition the player to Walking; the code's `switch`
has no case for the diagonal commands, so its `default` branch
dispatches nothing and the player stays Idle — the code differs from
the claimed behavior at this input. -/
theorem C5_counterexample :
    (InitPlayer "Hero" 1 []).currentState = State.idle ∧
    (MediatorExecuteCommand Command.moveUpLeft
        (some (CreateMediator (some (InitPlayer "Hero" 1 [])))) 0).1 =
      some (CreateMediator (some (InitPlayer "Hero" 1 []))) ∧
    (HandleEvent (InitPlayer "Hero" 1 []) Event.move 0).currentState =
      State.walking ∧
    MediatorExecuteCommand Command.moveUpLeft
        (some (CreateMediator (some (InitPlayer "Hero" 1 [])))) 0 ≠
      MediatorExecuteCommandSpec Command.moveUpLeft
        (some (CreateMediator (some (InitPlayer "Hero" 1 [])))) 0 := by
  refine ⟨rfl, rfl, rfl, ?_⟩
  have eCode : ((MediatorExecuteCommand Command.moveUpLeft
      (some (CreateMediator (some (InitPlayer "Hero" 1 [])))) 0).1.bind
        Mediator.obj).map GameObject.currentState = some State.idle := rfl
  have eSpec : ((MediatorExecuteCommandSpec Command.moveUpLeft
      (some (CreateMediator (some (InitPlayer "Hero" 1 [])))) 0).1.bind
        Mediator.obj).map GameObject.currentState = some State.walking := rfl
  intro h
  rw [h, eSpec] at eCode
  exact absurd (Option.some.inj eCode) (by decide)

/-- C5 (amended): `MediatorExecuteCommand` reports an error and
performs no dispatch when the mediator or its bound entity is NULL;
otherwise it forwards `EVENT_NONE` for `COMMAND_NONE`, `EVENT_MOVE` for
the four straight move commands, `EVENT_ATTACK` for `COMMAND_ATTACK`,
`EVENT_DIE` for `COMMAND_COLLISION_START` and `EVENT_RESPAWN` for
`COMMAND_COLLISION_END` to the bound entity via `HandleEvent`; the
diagonal move commands and any other unmapped command fall into the
`default` branch, dispatching nothing and leaving the entity
unchanged (no `EVENT_NONE` is forwarded for them). -/
theorem C5_amended_mediator_dispatch (command : Command) (dt : ℚ)
    (m : Mediator) (obj : GameObject) (hm : m.obj = some obj) :
    MediatorExecuteCommand command none dt = (none, true) ∧
    MediatorExecuteCommand command (some ⟨none⟩) dt = (some ⟨none⟩, true) ∧
    MediatorExecuteCommand command (some m) dt =
      (match commandToEvent command with
       | some event => (some ⟨some (HandleEvent obj event dt)⟩, false)
       | none => (some m, false)) := by
  refine ⟨rfl, rfl, ?_⟩
  cases command <;> simp [MediatorExecuteCommand, commandToEvent, hm]

/-- Witness for the amended C5: `COMMAND_ATTACK` on a mediator bound to
a fresh player. -/
theorem C5_amended_mediator_dispatch_witness :
    MediatorExecuteCommand Command.attack none 0 = (none, true) ∧
    MediatorExecuteCommand Command.attack (some ⟨none⟩) 0 =
      (some ⟨none⟩, true) ∧
    MediatorExecuteCommand Command.attack
        (some (CreateMediator (some (InitPlayer "Hero" 1 [])))) 0 =
      (match commandToEvent Command.attack with
       | some event =>
          (some ⟨some (HandleEvent (InitPlayer "Hero" 1 []) event 0)⟩, false)
       | none => (some (CreateMediator (some (InitPlayer "Hero" 1 []))), false)) :=
  C5_amended_mediator_dispatch Command.attack 0
    (CreateMediator (some (InitPlayer "Hero" 1 [])))
    (InitPlayer "Hero" 1 []) rfl

/-- The states a player entity can actually occupy: it starts in Idle
and every whitelist entry reachable from these states stays inside this
list (closure proved in the amended C10 theorem). -/
def playerReachableStates : List State :=
  [State.idle, State.walking, State.attacking, State.shield, State.dead,
   State.respawn]

/-- The states an NPC entity can actually occupy. -/
def npcReachableStates : List State :=
  [State.idle, State.attacking, State.shield, State.dead]

/-- C10 counterexample: a freshly initialized player (a reachable
current state, Idle) requesting the empty-placeholder target
`STATE_COLLISION` takes `ChangeState`'s failure branch
(`CanEnterState` is false), and there the formatted target name
`stateConfigs[STATE_COLLISION].name` is NULL — contrary to the claim
that both name reads always yield a non-null string. -/
theorem C10_counterexample :
    CanEnterState (InitPlayer "Hero" 1 []) State.collision = false ∧
    ((InitPlayer "Hero" 1 []).stateConfigs
        (InitPlayer "Hero" 1 []).currentState).name = some "Player_Idle" ∧
    ((InitPlayer "Hero" 1 []).stateConfigs State.collision).name =
      Option.none :=
  ⟨rfl, rfl, rfl⟩

/-- C10 (amended): for every player or NPC entity whose current state
is reachable, the current-state name read in `ChangeState`'s failure
branch is non-null; the target-state name read is non-null unless the
target is one of the table's empty placeholders (the player's
`STATE_COLLISION`; the NPC's `STATE_WALKING`, `STATE_RESPAWN`,
`STATE_COLLISION`; and the out-of-table `STATE_COUNT` index), in which
case the error path formats a NULL name.  The reachable-state lists are
transition-closed for their tables. -/
theorem C10_amended_error_path_names (obj : GameObject) (target : State)
    (h : (obj.stateConfigs = playerStateConfigs ∧
            obj.currentState ∈ playerReachableStates) ∨
         (obj.stateConfigs = npcStateConfigs ∧
            obj.currentState ∈ npcReachableStates)) :
    (obj.stateConfigs obj.currentState).name.isSome = true ∧
    ((obj.stateConfigs target).name.isSome = true ∨
      obj.stateConfigs target = EMPTY_STATE_CONFIG) ∧
    (∀ s ∈ playerReachableStates,
      ∀ u ∈ (playerStateConfigs s).nextStates, u ∈ playerReachableStates) ∧
    (∀ s ∈ npcReachableStates,
      ∀ u ∈ (npcStateConfigs s).nextStates, u ∈ npcReachableStates) := by
  refine ⟨?_, ?_, by decide, by decide⟩
  · rcases h with ⟨ht, hc⟩ | ⟨ht, hc⟩
    · rw [ht]
      simp only [playerReachableStates, List.mem_cons,
        List.not_mem_nil, or_false] at hc
      rcases hc with hc | hc | hc | hc | hc | hc <;> rw [hc] <;> rfl
    · rw [ht]
      simp only [npcReachableStates, List.mem_cons,
        List.not_mem_nil, or_false] at hc
      rcases hc with hc | hc | hc | hc <;> rw [hc] <;> rfl
  · rcases h with ⟨ht, _⟩ | ⟨ht, _⟩ <;> rw [ht] <;> cases target <;>
      first
        | exact Or.inl rfl
        | exact Or.inr rfl

/-- Witness for the amended C10: a fresh player requesting the
placeholder `STATE_COLLISION` target. -/
theorem C10_amended_error_path_names_witness :
    ((InitPlayer "Hero" 1 []).stateConfigs
        (InitPlayer "Hero" 1 []).currentState).name.isSome = true ∧
    (((InitPlayer "Hero" 1 []).stateConfigs State.collision).name.isSome =
        true ∨
      (InitPlayer "Hero" 1 []).stateConfigs State.collision =
        EMPTY_STATE_CONFIG) ∧
    (∀ s ∈ playerReachableStates,
      ∀ u ∈ (playerStateConfigs s).nextStates, u ∈ playerReachableStates) ∧
    (∀ s ∈ npcReachableStates,
      ∀ u ∈ (npcStateConfigs s).nextStates, u ∈ npcReachableStates) :=
  C10_amended_error_path_names (InitPlayer "Hero" 1 []) State.collision
    (Or.inl ⟨InitPlayer_stateConfigs "Hero" 1 [],
      by rw [InitPlayer_currentState]; decide⟩)

end SmallWorld
